import Mathlib

/-!
Verification of the `nautilus_trader` logging core
(`src/nautilus_core/common/src/logging/mod.rs`) against its natural-language
specification.  The Rust code is shallowly embedded: pure functions become
Lean functions, the producer/consumer pipeline becomes explicit state passing
over lists of events, and the process-wide atomics become a record threaded
through the operations of the public interface.
-/

namespace NautilusLogging

/-- Embeds `log::Level` from the `log` crate (a dependency of the source
file): `Error < Warn < Info < Debug < Trace` with the numeric discriminants
1..5 used by the crate's `PartialOrd` implementations. -/
inductive Level where
  | Error
  | Warn
  | Info
  | Debug
  | Trace
deriving DecidableEq, Repr

/-- Numeric discriminant of `log::Level` (`Error = 1`, ..., `Trace = 5`);
`Level`/`LevelFilter` comparisons in the crate compare these as `usize`. -/
def Level.toNat : Level → Nat
  | .Error => 1
  | .Warn => 2
  | .Info => 3
  | .Debug => 4
  | .Trace => 5

/-- Embeds `log::Level::as_str` (also the `Display` impl, which pads with
`fmt.pad`): the uppercase severity name. -/
def Level.asStr : Level → String
  | .Error => "ERROR"
  | .Warn => "WARN"
  | .Info => "INFO"
  | .Debug => "DEBUG"
  | .Trace => "TRACE"

/-- Embeds `log::LevelFilter`: `Off = 0`, then the five levels. -/
inductive LevelFilter where
  | Off
  | Error
  | Warn
  | Info
  | Debug
  | Trace
deriving DecidableEq, Repr

/-- Numeric discriminant of `log::LevelFilter` (`Off = 0`, ..., `Trace = 5`). -/
def LevelFilter.toNat : LevelFilter → Nat
  | .Off => 0
  | .Error => 1
  | .Warn => 2
  | .Info => 3
  | .Debug => 4
  | .Trace => 5

/-- Embeds the crate's `impl PartialOrd<LevelFilter> for Level`
(`self as usize <= other as usize`). -/
def levelLeFilter (l : Level) (f : LevelFilter) : Bool :=
  decide (l.toNat ≤ f.toNat)

/-- Embeds the crate's `Level > LevelFilter` comparison, used by the
consumer's component filter (`line.level > filter_level`). -/
def levelGtFilter (l : Level) (f : LevelFilter) : Bool :=
  decide (f.toNat < l.toNat)

/-- Embeds `crate::enums::LogLevel`; the variants `Off`, `Debug`, `Info`,
`Warning`, `Error` are fixed by `map_log_level_to_filter` and `log` in the
source file. -/
inductive LogLevel where
  | Off
  | Debug
  | Info
  | Warning
  | Error
deriving DecidableEq, Repr

/-- Modelled from the spec: `crate::enums::LogColor` (its defining module is
not under `src/`); the spec gives the closed enumeration
`{Normal, Green, Blue, Magenta, Cyan, Yellow, Red}`. -/
inductive LogColor where
  | Normal
  | Green
  | Blue
  | Magenta
  | Cyan
  | Yellow
  | Red
deriving DecidableEq, Repr

/-- Modelled from the spec: the serde variant name of a `LogColor` (a derived
unit-variant serializer renders the variant name; the source file's test
expects `"color":"Normal"`). -/
def LogColor.serdeName : LogColor → String
  | .Normal => "Normal"
  | .Green => "Green"
  | .Blue => "Blue"
  | .Magenta => "Magenta"
  | .Cyan => "Cyan"
  | .Yellow => "Yellow"
  | .Red => "Red"

/-- Modelled from the spec: `u8 → LogColor` (`From<u8>`, used by
`Logger::log` for the `color` key/value); discriminants follow the spec's
enumeration order, anything else falling back to `Normal`. -/
def LogColor.fromU8 (n : Nat) : LogColor :=
  if n = 1 then .Green
  else if n = 2 then .Blue
  else if n = 3 then .Magenta
  else if n = 4 then .Cyan
  else if n = 5 then .Yellow
  else if n = 6 then .Red
  else .Normal

/-- Modelled from the spec: `LogColor as u8` (the discriminant the producer
facade attaches as the `color` key/value). -/
def LogColor.toU8 : LogColor → Nat
  | .Normal => 0
  | .Green => 1
  | .Blue => 2
  | .Magenta => 3
  | .Cyan => 4
  | .Yellow => 5
  | .Red => 6

/-- Embeds `map_log_level_to_filter` from the source file. -/
def map_log_level_to_filter : LogLevel → LevelFilter
  | .Off => .Off
  | .Debug => .Debug
  | .Info => .Info
  | .Warning => .Warn
  | .Error => .Error

/-- ASCII upper-casing of one character, as done byte-wise by Rust's
`eq_ignore_ascii_case` (non-ASCII characters are untouched; every string the
parser compares against is ASCII). -/
def asciiUpper (c : Char) : Char :=
  if 'a' ≤ c ∧ c ≤ 'z' then Char.ofNat (c.toNat - 32) else c

/-- Embeds `str::eq_ignore_ascii_case`, used by `LevelFilter::from_str`. -/
def eqIgnoreAsciiCase (a b : List Char) : Bool :=
  a.map asciiUpper == b.map asciiUpper

/-- Embeds `log::LevelFilter::from_str`: a case-insensitive match against
the crate's `LOG_LEVEL_NAMES = ["OFF","ERROR","WARN","INFO","DEBUG","TRACE"]`;
`none` models the `Err(ParseLevelError)` result. -/
def LevelFilter.fromStr (s : List Char) : Option LevelFilter :=
  if eqIgnoreAsciiCase s "OFF".data then some .Off
  else if eqIgnoreAsciiCase s "ERROR".data then some .Error
  else if eqIgnoreAsciiCase s "WARN".data then some .Warn
  else if eqIgnoreAsciiCase s "INFO".data then some .Info
  else if eqIgnoreAsciiCase s "DEBUG".data then some .Debug
  else if eqIgnoreAsciiCase s "TRACE".data then some .Trace
  else none

/-- Embeds `parse_level_filter_str` from the source file: upper-case the
input, rewrite `"WARNING"` to `"WARN"`, then `LevelFilter::from_str`;
`none` models the `panic!` on an unparseable name.  (The source uses
Unicode `to_uppercase`; ASCII upper-casing agrees on all level names.) -/
def parse_level_filter_str (s : String) : Option LevelFilter :=
  let u := s.data.map asciiUpper
  let u := if u = "WARNING".data then "WARN".data else u
  LevelFilter.fromStr u

/-- Embeds Rust's `str::split` for a one-character separator, as used by
`LoggerConfig::from_spec` (`spec.split(';')`, `kv.split('=')`): the empty
string yields one empty piece, and a trailing separator yields a trailing
empty piece. -/
def splitOnChar (sep : Char) : List Char → List (List Char)
  | [] => [[]]
  | c :: rest =>
    match splitOnChar sep rest with
    | [] => if c = sep then [[], []] else [[c]]
    | t :: ts => if c = sep then [] :: t :: ts else (c :: t) :: ts

/-- Association-list update with `HashMap::insert` semantics: replace the
value of an existing key, otherwise append the new binding. -/
def insertKV (m : List (String × LevelFilter)) (k : String) (v : LevelFilter) :
    List (String × LevelFilter) :=
  if m.any (fun p => p.1 = k) then
    m.map (fun p => if p.1 = k then (k, v) else p)
  else
    m ++ [(k, v)]

/-- Association-list lookup with `HashMap::get` semantics. -/
def lookupLevel : List (String × LevelFilter) → String → Option LevelFilter
  | [], _ => none
  | (k, v) :: rest, c => if k = c then some v else lookupLevel rest c

/-- Embeds `LoggerConfig` from the source file; the `HashMap<Ustr,
LevelFilter>` becomes an association list with unique keys and interned
`Ustr` component names become `String`. -/
structure LoggerConfig where
  stdout_level : LevelFilter
  fileout_level : LevelFilter
  component_level : List (String × LevelFilter)
  is_colored : Bool
  print_config : Bool
deriving DecidableEq, Repr

/-- Embeds `impl Default for LoggerConfig`: stdout `Info`, fileout `Off`,
empty component map, not colored, no config printing. -/
def LoggerConfig.default : LoggerConfig :=
  ⟨.Info, .Off, [], false, false⟩

/-- Embeds `LoggerConfig::from_spec`: fold over the `';'`-separated tokens,
recognising the bare flags `is_colored` and `print_config`, and otherwise a
`key=value` pair whose value must parse via `LevelFilter::from_str`;
unparseable tokens are ignored. -/
def LoggerConfig.from_spec (spec : String) : LoggerConfig :=
  (splitOnChar ';' spec.data).foldl
    (fun cfg kv =>
      if kv = "is_colored".data then
        ⟨cfg.stdout_level, cfg.fileout_level, cfg.component_level, true, cfg.print_config⟩
      else if kv = "print_config".data then
        ⟨cfg.stdout_level, cfg.fileout_level, cfg.component_level, cfg.is_colored, true⟩
      else
        match splitOnChar '=' kv with
        | k :: v :: _ =>
          match LevelFilter.fromStr v with
          | some lvl =>
            if k = "stdout".data then
              ⟨lvl, cfg.fileout_level, cfg.component_level, cfg.is_colored, cfg.print_config⟩
            else if k = "fileout".data then
              ⟨cfg.stdout_level, lvl, cfg.component_level, cfg.is_colored, cfg.print_config⟩
            else
              ⟨cfg.stdout_level, cfg.fileout_level,
                insertKV cfg.component_level (String.mk k) lvl,
                cfg.is_colored, cfg.print_config⟩
          | none => cfg
        | _ => cfg)
    LoggerConfig.default

/-- Sanity anchor: the source file's test `log_config_parsing`. -/
example :
    LoggerConfig.from_spec "stdout=Info;is_colored;fileout=Debug;RiskEngine=Error"
      = ⟨.Info, .Debug, [("RiskEngine", .Error)], true, false⟩ := by decide

/-- Sanity anchor: the source file's test `log_config_parsing2`. -/
example :
    LoggerConfig.from_spec "stdout=Warn;print_config;fileout=Error;"
      = ⟨.Warn, .Error, [], false, true⟩ := by decide

/-- Modelled from the spec: the civil-calendar part of
`nautilus_core::datetime::unix_nanos_to_iso8601` (a collaborator crate not
under `src/`): converts days since the Unix epoch to (year, month, day). -/
def civilFromDays (z : Nat) : Nat × Nat × Nat :=
  let z := z + 719468
  let era := z / 146097
  let doe := z % 146097
  let yoe := (doe - doe / 1460 + doe / 36524 - doe / 146096) / 365
  let y := yoe + era * 400
  let doy := doe - (365 * yoe + yoe / 4 - yoe / 100)
  let mp := (5 * doy + 2) / 153
  let d := doy - (153 * mp + 2) / 5 + 1
  let m := if mp < 10 then mp + 3 else mp - 9
  (if m ≤ 2 then y + 1 else y, m, d)

/-- Left-pads the decimal rendering of `n` with zeros to width `w`. -/
def padZeros (w : Nat) (n : Nat) : String :=
  let s := toString n
  ⟨List.replicate (w - s.length) '0' ++ s.data⟩

/-- Modelled from the spec: `nautilus_core::datetime::unix_nanos_to_iso8601`
(not under `src/`): ISO-8601 UTC with nine fractional digits and a literal
`Z`, e.g. `1970-01-20T02:20:00.000000000Z`. -/
def unix_nanos_to_iso8601 (ns : Nat) : String :=
  let days := ns / 86400000000000
  let secsOfDay := ns / 1000000000 % 86400
  let ymd := civilFromDays days
  padZeros 4 ymd.1 ++ "-" ++ padZeros 2 ymd.2.1 ++ "-" ++ padZeros 2 ymd.2.2 ++
    "T" ++ padZeros 2 (secsOfDay / 3600) ++ ":" ++ padZeros 2 (secsOfDay % 3600 / 60) ++
    ":" ++ padZeros 2 (secsOfDay % 60) ++ "." ++ padZeros 9 (ns % 1000000000) ++ "Z"

/-- Sanity anchor: the timestamp of the source file's test
`test_logging_to_file` (static clock at 1_650_000_000_000_000 ns). -/
example : unix_nanos_to_iso8601 1650000000000000 = "1970-01-20T02:20:00.000000000Z" := by
  decide

/-- Embeds `LogLine` from the source file (`level`, `color`, `component`,
`message`, declared in that order, which fixes the serde field order). -/
structure LogLine where
  level : Level
  color : LogColor
  component : String
  message : String
deriving DecidableEq, Repr

/-- Embeds `LogEvent` from the source file: a log line, or the command to
flush all logger buffers. -/
inductive LogEvent where
  | Log (line : LogLine)
  | Flush
deriving DecidableEq, Repr

/-- Embeds the `Display` impl for `LogLine`:
`"[<level>] <component>: <message>"`. -/
def LogLine.display (l : LogLine) : String :=
  "[" ++ l.level.asStr ++ "] " ++ l.component ++ ": " ++ l.message

/-- One hexadecimal digit (lowercase), as emitted by serde_json's
`\u00XX` escapes. -/
def hexDigit (n : Nat) : Char :=
  if n < 10 then Char.ofNat (48 + n) else Char.ofNat (87 + n)

/-- Embeds serde_json's escaping of one character inside a JSON string:
quote, backslash and the named control characters get two-character escapes,
all other control characters below 0x20 get a `\u00XX` escape, and everything
else is passed through. -/
def escChar (c : Char) : List Char :=
  if c = '"' then ['\\', '"']
  else if c = '\\' then ['\\', '\\']
  else if c = '\x08' then ['\\', 'b']
  else if c = '\x0c' then ['\\', 'f']
  else if c = '\n' then ['\\', 'n']
  else if c = '\r' then ['\\', 'r']
  else if c = '\t' then ['\\', 't']
  else if c.toNat < 32 then
    ['\\', 'u', '0', '0', hexDigit (c.toNat / 16 % 16), hexDigit (c.toNat % 16)]
  else [c]

/-- Embeds serde_json's escaping of a whole string body. -/
def jsonEscape (cs : List Char) : List Char :=
  (cs.map escChar).flatten

/-- The opening brace character of a JSON object. -/
def lbrace : Char := Char.ofNat 123

/-- The closing brace character of a JSON object. -/
def rbrace : Char := Char.ofNat 125

/-- One `"key":"value"` member of a compact JSON object (every field of
`LogLine` serializes as a JSON string). -/
def jsonMember (key : String) (valChars : List Char) : List Char :=
  '"' :: key.data ++ '"' :: ':' :: '"' :: valChars ++ ['"']

/-- A compact (no whitespace) JSON object whose members appear in the given
order, separated by commas. -/
def compactJsonObject (fields : List (String × List Char)) : List Char :=
  lbrace :: List.intercalate [','] (fields.map (fun p => jsonMember p.1 p.2)) ++ [rbrace]

/-- Embeds `serde_json::to_string(&LogLine)`: a derived struct serializer
emits the fields in declaration order `level, color, component, message`;
`log::Level` serializes as its uppercase name (`serialize_unit_variant`),
`LogColor` as its variant name, and the string fields with JSON escaping. -/
def logLineJsonChars (l : LogLine) : List Char :=
  compactJsonObject
    [("level", (l.level.asStr).data),
     ("color", (l.color.serdeName).data),
     ("component", jsonEscape l.component.data),
     ("message", jsonEscape l.message.data)]

/-- Embeds `LogLineWrapper` from the source file: the wrapped line, the two
lazily-filled caches (`cache` for the plain rendering, `colored` for the
colored one — there is no field for a JSON cache), the timestamp string and
the trader id. -/
structure LogLineWrapper where
  line : LogLine
  cache : Option String
  colored : Option String
  timestamp : String
  trader_id : String
deriving DecidableEq, Repr

/-- Embeds `LogLineWrapper::new`: empty caches, timestamp formatted from the
given nanosecond value via `unix_nanos_to_iso8601`. -/
def LogLineWrapper.new (line : LogLine) (trader_id : String) (timestamp : Nat) :
    LogLineWrapper :=
  ⟨line, none, none, unix_nanos_to_iso8601 timestamp, trader_id⟩

/-- Modelled from the spec: the `Display` impl of `LogColor` (ANSI SGR
prefix; `Normal` is the empty prefix).  It lives in `crate::enums`, which is
not under `src/`; the exact escape bytes of the non-`Normal` variants do not
affect any claim. -/
def LogColor.display : LogColor → String
  | .Normal => ""
  | .Green => "\x1b[92m"
  | .Blue => "\x1b[94m"
  | .Magenta => "\x1b[95m"
  | .Cyan => "\x1b[96m"
  | .Yellow => "\x1b[93m"
  | .Red => "\x1b[91m"

/-- The plain rendering of a wrapped line, as built by the closure inside
`LogLineWrapper::get_string`:
`"<timestamp> [<LEVEL>] <trader_id>.<component>: <message>\n"`. -/
def plainText (w : LogLineWrapper) : String :=
  w.timestamp ++ " [" ++ w.line.level.asStr ++ "] " ++ w.trader_id ++ "." ++
    w.line.component ++ ": " ++ w.line.message ++ "\n"

/-- The colored rendering of a wrapped line, as built by the closure inside
`LogLineWrapper::get_colored`. -/
def coloredText (w : LogLineWrapper) : String :=
  "\x1b[1m" ++ w.timestamp ++ "\x1b[0m " ++ w.line.color.display ++ "[" ++
    w.line.level.asStr ++ "] " ++ w.trader_id ++ "." ++ w.line.component ++ ": " ++
    w.line.message ++ "\x1b[0m\n"

/-- Embeds `LogLineWrapper::get_string` (`&mut self`,
`self.cache.get_or_insert_with(..)`): returns the rendering, the updated
wrapper, and the number of times the rendering closure ran during this call
(0 when the cache was already filled, 1 when it had to compute). -/
def LogLineWrapper.get_string (w : LogLineWrapper) : String × LogLineWrapper × Nat :=
  match w.cache with
  | some s => (s, w, 0)
  | none =>
    let s := plainText w
    (s, ⟨w.line, some s, w.colored, w.timestamp, w.trader_id⟩, 1)

/-- Embeds `LogLineWrapper::get_colored` (`&mut self`,
`self.colored.get_or_insert_with(..)`), instrumented like `get_string`. -/
def LogLineWrapper.get_colored (w : LogLineWrapper) : String × LogLineWrapper × Nat :=
  match w.colored with
  | some s => (s, w, 0)
  | none =>
    let s := coloredText w
    (s, ⟨w.line, w.cache, some s, w.timestamp, w.trader_id⟩, 1)

/-- Embeds `LogLineWrapper::get_json` (`&self`): serializes the line with
serde_json and appends one newline; the wrapper is not mutated and nothing
is stored, so the serialization count of every call is 1. -/
def LogLineWrapper.get_json (w : LogLineWrapper) : String × Nat :=
  (⟨logLineJsonChars w.line ++ ['\n']⟩, 1)

/-- Sanity anchor: the JSON line of the source file's test
`test_logging_to_file_in_json_format`. -/
example :
    (LogLineWrapper.get_json
      (LogLineWrapper.new ⟨.Info, .Normal, "RiskEngine", "This is a test."⟩
        "TRADER-001" 1650000000000000)).1
    = "\x7b\"level\":\"INFO\",\"color\":\"Normal\",\"component\":\"RiskEngine\",\"message\":\"This is a test.\"\x7d\n" := by
  decide

/-- Embeds the process-wide atomics of the source file
(`LOGGING_INITIALIZED`, `LOGGING_BYPASSED`, `LOGGING_REALTIME`,
`LOGGING_COLORED`) together with the static clock register of the
`nautilus_core` clock collaborator. -/
structure GlobalState where
  initialized : Bool
  bypassed : Bool
  realtime : Bool
  colored : Bool
  staticTime : Nat
deriving DecidableEq, Repr

/-- The statics' initial values: `INITIALIZED = false`, `BYPASSED = false`,
`REALTIME = true`, `COLORED = true`, static clock at 0. -/
def initialGlobalState : GlobalState :=
  ⟨false, false, true, true, 0⟩

/-- Embeds `logging_is_initialized` (returns the flag as a `u8`). -/
def logging_is_initialized (s : GlobalState) : Nat :=
  if s.initialized then 1 else 0

/-- Embeds `logging_set_bypass`. -/
def logging_set_bypass (s : GlobalState) : GlobalState :=
  ⟨s.initialized, true, s.realtime, s.colored, s.staticTime⟩

/-- Embeds `logging_is_colored` (returns the flag as a `u8`). -/
def logging_is_colored (s : GlobalState) : Nat :=
  if s.colored then 1 else 0

/-- Embeds `logging_clock_set_realtime_mode`. -/
def logging_clock_set_realtime_mode (s : GlobalState) : GlobalState :=
  ⟨s.initialized, s.bypassed, true, s.colored, s.staticTime⟩

/-- Embeds `logging_clock_set_static_mode`. -/
def logging_clock_set_static_mode (s : GlobalState) : GlobalState :=
  ⟨s.initialized, s.bypassed, false, s.colored, s.staticTime⟩

/-- Embeds `logging_clock_set_static_time`. -/
def logging_clock_set_static_time (t : Nat) (s : GlobalState) : GlobalState :=
  ⟨s.initialized, s.bypassed, s.realtime, s.colored, t⟩

/-- Embeds `Logger::enabled` (the `Log` trait impl): admitted iff the bypass
flag is unset and the severity is `Error`, or at or below `stdout_level`, or
at or below `fileout_level`. -/
def Logger.enabled (bypassed : Bool) (cfg : LoggerConfig) (level : Level) : Bool :=
  !bypassed &&
    (decide (level = Level.Error) ||
      levelLeFilter level cfg.stdout_level ||
      levelLeFilter level cfg.fileout_level)

/-- Embeds `log::Record` as consumed by `Logger::log`: the severity, the
macro target (used as the default component), the formatted message, and the
`color`/`component` structured key/values when attached. -/
structure LogRecordIn where
  level : Level
  target : String
  args : String
  kvColor : Option Nat
  kvComponent : Option String
deriving DecidableEq, Repr

/-- The observable effect of one producer-side call: the event sent down the
channel (if any), the lines written to stderr, and whether the call
panicked. -/
structure ProducerEffect where
  sent : Option LogLine
  sentFlush : Bool
  stderrLines : List String
  panicked : Bool
deriving DecidableEq, Repr

/-- Embeds `Logger::log`: if `enabled` admits the record's severity, build a
`LogLine` (color from the `color` key/value via `u8 → LogColor`, defaulting
to `Normal`; component from the `component` key/value, defaulting to the
record's target) and send it; when the send fails (`connected = false`, the
consumer is gone) write the one-line diagnostic to stderr and drop the
record; otherwise do nothing.  The call never panics. -/
def Logger.logRecord (bypassed : Bool) (cfg : LoggerConfig) (record : LogRecordIn)
    (connected : Bool) : ProducerEffect :=
  if Logger.enabled bypassed cfg record.level then
    let color := (record.kvColor.map (fun v => LogColor.fromU8 (v % 256))).getD .Normal
    let component := record.kvComponent.getD record.target
    let line : LogLine := ⟨record.level, color, component, record.args⟩
    if connected then
      ⟨some line, false, [], false⟩
    else
      ⟨none, false, ["Error sending log event: " ++ line.display], false⟩
  else
    ⟨none, false, [], false⟩

/-- Embeds `Logger::flush`: `self.tx.send(LogEvent::Flush).unwrap()` — the
`Flush` event is sent when the channel is connected, and the `unwrap`
panics (with no stderr diagnostic) when the consumer has exited. -/
def Logger.flushSend (connected : Bool) : ProducerEffect :=
  if connected then ⟨none, true, [], false⟩ else ⟨none, false, [], true⟩

/-- Embeds `FileWriterConfig` from `logging::writer` (fields as used by the
source file and its tests: optional directory, file name and file format). -/
structure FileWriterConfig where
  directory : Option String
  file_name : Option String
  file_format : Option String
deriving DecidableEq, Repr

/-- The observable effect of `init_logging` / `Logger::init_with_config`:
lines printed to stdout (config printing), lines printed to stderr
(installation failure), and whether the consumer thread was spawned. -/
structure InitEffect where
  stdoutLines : List String
  stderrLines : List String
  spawned : Bool
deriving DecidableEq, Repr

/-- Modelled from the `log` crate: the `Display` of `SetLoggerError`, shown
when `set_boxed_logger` fails because a sink is already installed. -/
def setLoggerErrorMsg : String :=
  "attempted to set a logger after the logging system was already initialized"

/-- Embeds `Logger::init_with_config`: optionally print the configuration,
then try to install the logger as the process-wide sink (`set_boxed_logger`,
whose success is the `installOk` argument — it fails iff another sink is
already installed); on success spawn the consumer thread and set the max
level, on failure print the one-line diagnostic to stderr.  This function
touches none of the process-wide atomics. -/
def Logger.init_with_config (cfg : LoggerConfig) (_file_config : FileWriterConfig)
    (installOk : Bool) : InitEffect :=
  let configLines :=
    if cfg.print_config then
      ["STATIC_MAX_LEVEL=" ++ "Trace", "Logger initialized with config"]
    else []
  if installOk then
    ⟨configLines ++
      (if cfg.print_config then
        ["Logger set as implementation with max level " ++ "DEBUG"]
      else []),
      [], true⟩
  else
    ⟨configLines, ["Cannot set logger because of error: " ++ setLoggerErrorMsg], false⟩

/-- Embeds `init_logging`: store `true` into `LOGGING_INITIALIZED` and the
config's `is_colored` into `LOGGING_COLORED` — unconditionally, before the
installation is attempted — then delegate to `Logger::init_with_config`. -/
def init_logging (s : GlobalState) (cfg : LoggerConfig) (file_config : FileWriterConfig)
    (installOk : Bool) : GlobalState × InitEffect :=
  (⟨true, s.bypassed, s.realtime, cfg.is_colored, s.staticTime⟩,
    Logger.init_with_config cfg file_config installOk)

/-- The operations of the public (`extern "C"` and `pub`) interface of the
source file that touch or read the process-wide state.  `shutdown` embeds
`logging_shutdown`, whose body is `todo!()`: it panics before writing any
state, so its state transition is the identity. -/
inductive ApiOp where
  | setBypass
  | shutdown
  | isInitialized
  | isColored
  | clockSetRealtimeMode
  | clockSetStaticMode
  | clockSetStaticTime (t : Nat)
  | initLogging (cfg : LoggerConfig) (fc : FileWriterConfig) (installOk : Bool)
deriving Repr

/-- The state transition of one public operation. -/
def applyOp : ApiOp → GlobalState → GlobalState
  | .setBypass, s => logging_set_bypass s
  | .shutdown, s => s
  | .isInitialized, s => s
  | .isColored, s => s
  | .clockSetRealtimeMode, s => logging_clock_set_realtime_mode s
  | .clockSetStaticMode, s => logging_clock_set_static_mode s
  | .clockSetStaticTime t, s => logging_clock_set_static_time t s
  | .initLogging cfg _ _, s => (init_logging s cfg ⟨none, none, none⟩ true).1

/-- The state after a sequence of public operations. -/
def applyOps (ops : List ApiOp) (s : GlobalState) : GlobalState :=
  ops.foldl (fun st op => applyOp op st) s

/-- The three sinks of the consumer dispatcher. -/
inductive Sink where
  | stderrSink
  | stdoutSink
  | fileSink
deriving DecidableEq, Repr

/-- One observable action of the consumer on a writer: a write of formatted
bytes, or a flush. -/
inductive WriterAction where
  | write (sink : Sink) (text : String)
  | flushWriter (sink : Sink)
deriving DecidableEq, Repr

/-- Modelled from the spec: `StderrWriter::enabled` (`logging::writer` is
not under `src/`): enabled iff the severity is `Error`. -/
def stderrEnabled (line : LogLine) : Bool :=
  decide (line.level = Level.Error)

/-- Modelled from the spec: `StdoutWriter::enabled`: enabled iff the
severity is at or below `stdout_level` and is not `Error` (errors route to
stderr). -/
def stdoutEnabled (stdout_level : LevelFilter) (line : LogLine) : Bool :=
  levelLeFilter line.level stdout_level && !decide (line.level = Level.Error)

/-- Modelled from the spec: `FileWriter::enabled`: enabled iff the severity
is at or below `fileout_level`. -/
def fileEnabled (fileout_level : LevelFilter) (line : LogLine) : Bool :=
  levelLeFilter line.level fileout_level

/-- The environment of one consumer thread (`Logger::handle_messages`):
trader id, configuration, whether `FileWriter::new` succeeded (file I/O is
outside the model), the file writer's `json_format` flag (modelled from the
spec: set iff `file_format == "json"`), and the clock mode and readings the
thread observes. -/
structure ConsumerEnv where
  trader_id : String
  config : LoggerConfig
  fileCreated : Bool
  fileJson : Bool
  realtime : Bool
  rtTime : Nat
  staticTime : Nat
deriving DecidableEq, Repr

/-- Whether the consumer holds a file writer: the source constructs one only
when `fileout_level != Off` (and `FileWriter::new` must succeed). -/
def hasFileWriter (env : ConsumerEnv) : Bool :=
  decide (env.config.fileout_level ≠ LevelFilter.Off) && env.fileCreated

/-- Embeds the `LogEvent::Log` arm of the consumer loop: read the clock,
consult `component_level[line.component]` and discard when the severity is
strictly more verbose than the mapped filter; otherwise construct the
`LogLineWrapper` and offer it to the stderr, stdout and optional file
writers in that order, each write followed by a flush.  Returns the writer
actions and whether the record view was constructed. -/
def processLog (env : ConsumerEnv) (line : LogLine) : List WriterAction × Bool :=
  let timestamp := if env.realtime then env.rtTime else env.staticTime
  match lookupLevel env.config.component_level line.component with
  | some filter_level =>
    if levelGtFilter line.level filter_level then
      ([], false)
    else
      processLogWrite env line timestamp
  | none => processLogWrite env line timestamp
where
  /-- The writer-offering tail of the `LogEvent::Log` arm. -/
  processLogWrite (env : ConsumerEnv) (line : LogLine) (timestamp : Nat) :
      List WriterAction × Bool :=
    let wrapper := LogLineWrapper.new line env.trader_id timestamp
    let text := if env.config.is_colored then coloredText wrapper else plainText wrapper
    let stderrActs :=
      if stderrEnabled line then
        [WriterAction.write .stderrSink text, WriterAction.flushWriter .stderrSink]
      else []
    let stdoutActs :=
      if stdoutEnabled env.config.stdout_level line then
        [WriterAction.write .stdoutSink text, WriterAction.flushWriter .stdoutSink]
      else []
    let fileActs :=
      if hasFileWriter env && fileEnabled env.config.fileout_level line then
        [WriterAction.write .fileSink
          (if env.fileJson then (wrapper.get_json).1 else plainText wrapper),
          WriterAction.flushWriter .fileSink]
      else []
    (stderrActs ++ stdoutActs ++ fileActs, true)

/-- How the consumer loop of `Logger::handle_messages` ended: by channel
hang-up (all senders dropped) or by the `break` on a `Flush` event. -/
inductive ConsumerExit where
  | hangUp
  | flushStop
deriving DecidableEq, Repr

/-- Embeds the receive loop of `Logger::handle_messages` over the sequence
of dequeued events: a `Flush` event `break`s the loop immediately, a `Log`
event is processed by the `Log` arm, and an empty remainder is the channel
hang-up. -/
def handleMessages (env : ConsumerEnv) : List LogEvent → List WriterAction × ConsumerExit
  | [] => ([], .hangUp)
  | .Flush :: _ => ([], .flushStop)
  | .Log line :: rest =>
    let step := processLog env line
    let tail := handleMessages env rest
    (step.1 ++ tail.1, tail.2)

/-- Embeds the producer facade `log` (free function at the bottom of the
source file): dispatch on the `LogLevel` to the corresponding `log!` macro,
attaching the component and the color discriminant as structured key/values;
`LogLevel::Off` invokes nothing. -/
def log (level : LogLevel) (color : LogColor) (component : String) (message : String) :
    Option LogRecordIn :=
  match level with
  | .Off => none
  | .Debug => some ⟨.Debug, "", message, some color.toU8, some component⟩
  | .Info => some ⟨.Info, "", message, some color.toU8, some component⟩
  | .Warning => some ⟨.Warn, "", message, some color.toU8, some component⟩
  | .Error => some ⟨.Error, "", message, some color.toU8, some component⟩

/-- A concrete record for witnesses: a `Debug` record with no structured
key/values. -/
def recDebug : LogRecordIn := ⟨.Debug, "nautilus", "msg", none, none⟩

/-- A concrete record for witnesses: an `Info` record with no structured
key/values. -/
def recInfo : LogRecordIn := ⟨.Info, "nautilus", "msg", none, none⟩

/-- A concrete consumer environment for witnesses: the default configuration
extended with the `RiskEngine=Error` component override of the source file's
test `test_log_component_level_filtering`. -/
def envRisk : ConsumerEnv :=
  ⟨"TRADER-001", ⟨.Info, .Debug, [("RiskEngine", .Error)], false, false⟩,
    true, false, false, 0, 1650000000000000⟩

/-- A concrete `Info` line on the `RiskEngine` component. -/
def lineRisk : LogLine := ⟨.Info, .Normal, "RiskEngine", "This is a test."⟩

/-- A concrete consumer environment with the default configuration. -/
def envDefault : ConsumerEnv :=
  ⟨"TRADER-001", LoggerConfig.default, false, false, true, 0, 0⟩

/-- A concrete wrapper for the `get_json` counterexample. -/
def wPortfolio : LogLineWrapper :=
  LogLineWrapper.new ⟨.Info, .Normal, "Portfolio", "This is a log message"⟩
    "TRADER-001" 0

/-- C1: the producer-side gate `Logger::enabled` admits a record iff the
bypassed flag is unset and the severity is `Error`, or at or below
`stdout_level`, or at or below `fileout_level`; equivalently, a record whose
severity is strictly more verbose than both levels and is not `Error` is
never enqueued by `Logger::log`. -/
theorem C1_producer_gate (b : Bool) (cfg : LoggerConfig) (lvl : Level) :
    (Logger.enabled b cfg lvl = true ↔
      (b = false ∧ (lvl = Level.Error ∨ lvl.toNat ≤ cfg.stdout_level.toNat ∨
        lvl.toNat ≤ cfg.fileout_level.toNat)))
    ∧ (∀ (record : LogRecordIn) (connected : Bool),
        record.level = lvl →
        cfg.stdout_level.toNat < lvl.toNat →
        cfg.fileout_level.toNat < lvl.toNat →
        lvl ≠ Level.Error →
        (Logger.logRecord b cfg record connected).sent = none) := by
  constructor
  · simp [Logger.enabled, levelLeFilter, or_assoc]
  · intro record connected hrl hs hf hne
    have h1 : ¬ lvl.toNat ≤ cfg.stdout_level.toNat := Nat.not_le.mpr hs
    have h2 : ¬ lvl.toNat ≤ cfg.fileout_level.toNat := Nat.not_le.mpr hf
    simp [Logger.logRecord, Logger.enabled, levelLeFilter, hrl, h1, h2, hne]

/-- C1 witness: a `Debug` record against the default configuration
(stdout `Info`, fileout `Off`) is not enqueued. -/
theorem C1_producer_gate_witness :
    (Logger.logRecord false LoggerConfig.default recDebug true).sent = none :=
  (C1_producer_gate false LoggerConfig.default Level.Debug).2 recDebug true rfl
    (by decide) (by decide) (by decide)

/-- C2: a dequeued record whose component is mapped by `component_level` to
a filter strictly less verbose than the record's severity is discarded by the
consumer before the record view is constructed, and no writer action is
produced for it. -/
theorem C2_component_filter_discards (env : ConsumerEnv) (line : LogLine)
    (f : LevelFilter)
    (hlook : lookupLevel env.config.component_level line.component = some f)
    (hgt : f.toNat < line.level.toNat) :
    processLog env line = ([], false) := by
  simp [processLog, hlook, levelGtFilter, hgt]

/-- C2 witness: an `Info` record on `RiskEngine` under the
`RiskEngine=Error` override produces no writer actions and constructs no
record view. -/
theorem C2_component_filter_discards_witness :
    processLog envRisk lineRisk = ([], false) :=
  C2_component_filter_discards envRisk lineRisk .Error (by decide) (by decide)

/-- C3 counterexample: dequeuing a `Flush` event terminates the consumer
loop with no writer actions at all — in particular no writer is flushed
before termination, contrary to the claimed Draining transition. -/
theorem C3_flush_counterexample :
    handleMessages envDefault [LogEvent.Flush] = ([], ConsumerExit.flushStop)
    ∧ WriterAction.flushWriter Sink.stderrSink ∉
        (handleMessages envDefault [LogEvent.Flush]).1
    ∧ WriterAction.flushWriter Sink.stdoutSink ∉
        (handleMessages envDefault [LogEvent.Flush]).1
    ∧ WriterAction.flushWriter Sink.fileSink ∉
        (handleMessages envDefault [LogEvent.Flush]).1 := by
  refine ⟨rfl, ?_, ?_, ?_⟩ <;> simp [handleMessages]

/-- C3 amended: dequeuing a `Flush` event makes the consumer exit its
receive loop immediately, emitting no further writer actions (writers are
instead flushed after every record written); the events after the `Flush`
are never processed. -/
theorem C3_flush_exits_loop (env : ConsumerEnv) (rest : List LogEvent) :
    handleMessages env (LogEvent.Flush :: rest) = ([], ConsumerExit.flushStop) :=
  rfl

/-- C4 counterexample: the JSON rendering is not cached — `get_json` takes
`&self`, stores nothing, and performs a serialization on every access, so
the access following a first access still computes (count 1, not 0) and two
consecutive accesses serialize twice. -/
theorem C4_json_not_cached_counterexample :
    (wPortfolio.get_json).2 = 1
    ∧ (wPortfolio.get_json).2 ≠ 0
    ∧ (wPortfolio.get_json).2 + (wPortfolio.get_json).2 = 2 := by
  refine ⟨rfl, by decide, rfl⟩

/-- C4 amended: the plain and colored renderings are computed at most once —
the first access fills the cache and a subsequent access returns the cached
string with no recomputation — while the JSON rendering is recomputed on
every access (each `get_json` call performs exactly one serialization and
leaves the wrapper unchanged). -/
theorem C4_render_caches (w : LogLineWrapper) :
    (w.get_string.2.2 ≤ 1
      ∧ (w.get_string.2.1).get_string.2.2 = 0
      ∧ (w.get_string.2.1).get_string.1 = w.get_string.1
      ∧ (w.get_string.2.1).get_string.2.1 = w.get_string.2.1)
    ∧ (w.get_colored.2.2 ≤ 1
      ∧ (w.get_colored.2.1).get_colored.2.2 = 0
      ∧ (w.get_colored.2.1).get_colored.1 = w.get_colored.1
      ∧ (w.get_colored.2.1).get_colored.2.1 = w.get_colored.2.1)
    ∧ (w.get_json).2 = 1 := by
  obtain ⟨line, cache, colored, ts, tid⟩ := w
  cases cache <;> cases colored <;>
    simp [LogLineWrapper.get_string, LogLineWrapper.get_colored,
      LogLineWrapper.get_json]

/-- Helper: no single public operation clears the bypassed flag. -/
theorem applyOp_preserves_bypassed (op : ApiOp) (s : GlobalState)
    (h : s.bypassed = true) : (applyOp op s).bypassed = true := by
  cases op <;>
    simp [applyOp, logging_set_bypass, logging_clock_set_realtime_mode,
      logging_clock_set_static_mode, logging_clock_set_static_time,
      init_logging, h]

/-- Helper: no sequence of public operations clears the bypassed flag. -/
theorem applyOps_preserves_bypassed (ops : List ApiOp) (s : GlobalState)
    (h : s.bypassed = true) : (applyOps ops s).bypassed = true := by
  induction ops generalizing s with
  | nil => exact h
  | cons op rest ih =>
    exact ih (applyOp op s) (applyOp_preserves_bypassed op s h)

/-- C5: bypass is a unidirectional latch — after `logging_set_bypass`, every
sequence of public operations leaves the bypassed flag set, the producer-side
`enabled` predicate rejects every severity, and `Logger::log` enqueues
nothing. -/
theorem C5_bypass_latch (s : GlobalState) (ops : List ApiOp) (cfg : LoggerConfig)
    (lvl : Level) (record : LogRecordIn) (connected : Bool) :
    (applyOps ops (logging_set_bypass s)).bypassed = true
    ∧ Logger.enabled (applyOps ops (logging_set_bypass s)).bypassed cfg lvl = false
    ∧ (Logger.logRecord (applyOps ops (logging_set_bypass s)).bypassed cfg record
        connected).sent = none := by
  have hb : (applyOps ops (logging_set_bypass s)).bypassed = true :=
    applyOps_preserves_bypassed ops (logging_set_bypass s) rfl
  refine ⟨hb, ?_, ?_⟩
  · simp [Logger.enabled, hb]
  · simp [Logger.logRecord, Logger.enabled, hb]

/-- C6 counterexample: from the fresh state, when installation fails the
failure line does go to stderr, but `logging_is_initialized` reports 1
(true), not 0 as the claim asserts — `init_logging` stored the flag
unconditionally before attempting the installation. -/
theorem C6_init_failure_counterexample :
    (init_logging initialGlobalState LoggerConfig.default ⟨none, none, none⟩
        false).2.stderrLines
      = ["Cannot set logger because of error: " ++ setLoggerErrorMsg]
    ∧ logging_is_initialized
        (init_logging initialGlobalState LoggerConfig.default ⟨none, none, none⟩
          false).1 = 1
    ∧ initialGlobalState.initialized = false
    ∧ (1 : Nat) ≠ 0 := by
  refine ⟨rfl, rfl, rfl, by decide⟩

/-- C6 amended: if installation of the logger as the process-wide sink
fails, the failure is reported to stderr and no consumer thread is spawned —
but `init_logging` has already stored `true` into the initialized flag
unconditionally before the installation attempt, so `logging_is_initialized`
reports 1 (true) after `init_logging` returns. -/
theorem C6_init_failure_sets_flag (s : GlobalState) (cfg : LoggerConfig)
    (fc : FileWriterConfig) :
    (init_logging s cfg fc false).2.stderrLines ≠ []
    ∧ (init_logging s cfg fc false).2.spawned = false
    ∧ (init_logging s cfg fc false).1.initialized = true
    ∧ logging_is_initialized (init_logging s cfg fc false).1 = 1 := by
  refine ⟨?_, rfl, rfl, rfl⟩
  simp [init_logging, Logger.init_with_config]

/-- C7 counterexample: `Logger::flush` on a disconnected channel panics
(the `unwrap`) and writes no stderr diagnostic — the claim asserts every
producer-side operation, flush included, writes a diagnostic and never
panics. -/
theorem C7_flush_panics_counterexample :
    (Logger.flushSend false).panicked = true
    ∧ (Logger.flushSend false).stderrLines = [] := by
  refine ⟨rfl, rfl⟩

/-- C7 amended: on channel send failure, `Logger::log` writes exactly one
diagnostic line to stderr, drops the record, and does not panic; but
`Logger::flush` unwraps the send result and panics when the channel is
disconnected (sending succeeds without panic while connected). -/
theorem C7_send_failure_behavior (b : Bool) (cfg : LoggerConfig)
    (record : LogRecordIn) (h : Logger.enabled b cfg record.level = true) :
    ((Logger.logRecord b cfg record false).sent = none
      ∧ (Logger.logRecord b cfg record false).stderrLines.length = 1
      ∧ (Logger.logRecord b cfg record false).panicked = false)
    ∧ (Logger.flushSend false).panicked = true
    ∧ (Logger.flushSend true).panicked = false := by
  refine ⟨?_, rfl, rfl⟩
  simp [Logger.logRecord, h]

/-- C7 witness: an admitted `Info` record against the default configuration,
sent while the consumer is gone, is dropped with one stderr line and no
panic. -/
theorem C7_send_failure_behavior_witness :
    ((Logger.logRecord false LoggerConfig.default recInfo false).sent = none
      ∧ (Logger.logRecord false LoggerConfig.default recInfo false).stderrLines.length = 1
      ∧ (Logger.logRecord false LoggerConfig.default recInfo false).panicked = false)
    ∧ (Logger.flushSend false).panicked = true
    ∧ (Logger.flushSend true).panicked = false :=
  C7_send_failure_behavior false LoggerConfig.default recInfo (by decide)

/-- C8 counterexample: `from_spec "stdout=WARNING"` leaves `stdout_level` at
the default `Info` — the value fails `LevelFilter::from_str`, which has no
`WARNING` synonym, and the token is silently ignored — whereas the claim
asserts it yields `Warn`. -/
theorem C8_warning_counterexample :
    (LoggerConfig.from_spec "stdout=WARNING").stdout_level = LevelFilter.Info
    ∧ LevelFilter.Info ≠ LevelFilter.Warn := by decide

/-- C8 amended: `parse_level_filter_str` parses case-insensitively and
accepts `WARNING` (in any letter case) as a synonym of `WARN`; `from_spec`
also parses severity values case-insensitively, but through
`LevelFilter::from_str`, which has no `WARNING` synonym — so
`from_spec "stdout=WARNING"` silently ignores the token and retains the
default `Info`, while `from_spec "stdout=wArN"` yields `Warn`. -/
theorem C8_warning_synonym :
    parse_level_filter_str "warning" = some LevelFilter.Warn
    ∧ parse_level_filter_str "WARNING" = some LevelFilter.Warn
    ∧ parse_level_filter_str "Warning" = some LevelFilter.Warn
    ∧ parse_level_filter_str "warn" = some LevelFilter.Warn
    ∧ (LoggerConfig.from_spec "stdout=wArN").stdout_level = LevelFilter.Warn
    ∧ (LoggerConfig.from_spec "stdout=WARNING").stdout_level = LevelFilter.Info := by
  decide

/-- Helper: a hexadecimal digit is never a newline. -/
theorem hexDigit_ne_newline : ∀ n < 16, hexDigit n ≠ '\n' := by decide

/-- Helper: the escaping of a single character never emits a newline
character (a literal newline in the input becomes the two characters
`\` and `n`). -/
theorem escChar_no_newline (c : Char) : '\n' ∉ escChar c := by
  unfold escChar
  split_ifs with h1 h2 h3 h4 h5 h6 h7 h8
  · decide
  · decide
  · decide
  · decide
  · decide
  · decide
  · decide
  · have ha : hexDigit (c.toNat / 16 % 16) ≠ '\n' :=
      hexDigit_ne_newline _ (Nat.mod_lt _ (by norm_num))
    have hb : hexDigit (c.toNat % 16) ≠ '\n' :=
      hexDigit_ne_newline _ (Nat.mod_lt _ (by norm_num))
    simp [List.mem_cons, Ne.symm ha, Ne.symm hb]
  · simp [List.mem_singleton]
    exact fun hc => h5 hc.symm

/-- Helper: the escaping of a whole string body contains no newline. -/
theorem jsonEscape_no_newline (cs : List Char) : '\n' ∉ jsonEscape cs := by
  intro hmem
  rw [jsonEscape, List.mem_flatten] at hmem
  obtain ⟨l, hl, hnl⟩ := hmem
  obtain ⟨c, _, rfl⟩ := List.mem_map.mp hl
  exact escChar_no_newline c hnl

/-- Helper: the uppercase severity name contains no newline. -/
theorem levelAsStr_no_newline (lvl : Level) : '\n' ∉ (Level.asStr lvl).data := by
  cases lvl <;> decide

/-- Helper: the color variant name contains no newline. -/
theorem colorSerdeName_no_newline (c : LogColor) :
    '\n' ∉ (LogColor.serdeName c).data := by
  cases c <;> decide

/-- Helper: a `"key":"value"` member contains no newline when the key and
the value contain none. -/
theorem jsonMember_no_newline (key : String) (val : List Char)
    (hk : '\n' ∉ key.data) (hv : '\n' ∉ val) :
    '\n' ∉ jsonMember key val := by
  rw [← List.count_eq_zero]
  have h1 : List.count '\n' key.data = 0 := List.count_eq_zero.mpr hk
  have h2 : List.count '\n' val = 0 := List.count_eq_zero.mpr hv
  simp +decide [jsonMember, List.count_append, List.count_cons, h1, h2]

/-- Helper: the serialized `LogLine` object is a single line — it contains
no newline character, any newline of the message having been escaped. -/
theorem logLineJsonChars_no_newline (l : LogLine) :
    '\n' ∉ logLineJsonChars l := by
  rw [← List.count_eq_zero]
  have h1 : List.count '\n' (jsonMember "level" (Level.asStr l.level).data) = 0 :=
    List.count_eq_zero.mpr
      (jsonMember_no_newline _ _ (by decide) (levelAsStr_no_newline l.level))
  have h2 : List.count '\n' (jsonMember "color" (LogColor.serdeName l.color).data) = 0 :=
    List.count_eq_zero.mpr
      (jsonMember_no_newline _ _ (by decide) (colorSerdeName_no_newline l.color))
  have h3 : List.count '\n' (jsonMember "component" (jsonEscape l.component.data)) = 0 :=
    List.count_eq_zero.mpr
      (jsonMember_no_newline _ _ (by decide) (jsonEscape_no_newline l.component.data))
  have h4 : List.count '\n' (jsonMember "message" (jsonEscape l.message.data)) = 0 :=
    List.count_eq_zero.mpr
      (jsonMember_no_newline _ _ (by decide) (jsonEscape_no_newline l.message.data))
  simp +decide [logLineJsonChars, compactJsonObject, List.intercalate,
    List.intersperse, List.flatten_cons, List.flatten_nil, List.count_append,
    List.count_cons, h1, h2, h3, h4, lbrace, rbrace]

/-- C9: for every wrapped record, `get_json` renders one compact JSON object
whose members appear in the fixed order `level, color, component, message`,
whose `level` value is the uppercase severity name (all-uppercase), the
object itself containing no newline, and the whole rendering terminated by
exactly one trailing newline. -/
theorem C9_json_rendering (w : LogLineWrapper) :
    (w.get_json).1.data
      = compactJsonObject
          [("level", (Level.asStr w.line.level).data),
           ("color", (LogColor.serdeName w.line.color).data),
           ("component", jsonEscape w.line.component.data),
           ("message", jsonEscape w.line.message.data)] ++ ['\n']
    ∧ '\n' ∉ logLineJsonChars w.line
    ∧ (w.get_json).1.data.getLast? = some '\n'
    ∧ (Level.asStr w.line.level).data.all (fun c => c.isUpper) = true := by
  refine ⟨rfl, logLineJsonChars_no_newline w.line, ?_, ?_⟩
  · show (logLineJsonChars w.line ++ ['\n']).getLast? = some '\n'
    simp
  · cases w.line.level <;> decide

/-- C10: the producer facade `log` with severity `LogLevel::Off` is a no-op:
no macro is invoked and no record is constructed or enqueued (the `Off` arm
of the match is empty; the function reads and writes no process-wide
state). -/
theorem C10_off_level_noop (color : LogColor) (component message : String) :
    log LogLevel.Off color component message = none :=
  rfl

end NautilusLogging
